import Mathlib

/-!
# Commons Guild Protocol — verification of the event / log / state core

A shallow embedding of the Commons Guild Protocol reference implementation
(TypeScript): the canonical object encoding (`safe-stable-stringify`:
JSON with lexicographically sorted keys, `undefined` entries omitted),
SHA-256 hashing (`hashObject` in `packages/core/src/crypto.ts`), the typed
event bodies, the state reducer (`packages/core/src/state.ts`), the
validator and chain validator (`core/src/log.ts` / `validator.ts`), and the
relay sequencing engine, checkpoint loop and retention prune
(`packages/relay/src/server.ts`).

Numbers are embedded as `Int` (all numeric fields in the protocol are
integral: `seq`, `createdAt` milliseconds, retention seconds/days); the
single fractional computation in the source, `ageSeconds = (now -
event.createdAt) / 1000`, is embedded exactly over `Rat`.  secp256k1
signature creation and verification are kept abstract: `verify` is an
arbitrary total Boolean function (the source wraps `secp.verify` in
try/catch and returns `false` on malformed input, so totality is faithful),
and `sign` an arbitrary function of the message digest.  SHA-256 itself is
implemented executably over `Nat` so that hash equalities and inequalities
at concrete inputs can be decided.
-/

set_option maxRecDepth 8000

namespace CGP

/-! ## SHA-256 over byte lists (bytes are `Nat` values < 256) -/

/-- Truncate to a 32-bit word. -/
def w32 (n : Nat) : Nat := n % 4294967296

/-- 32-bit right rotation. -/
def rotr32 (k n : Nat) : Nat := w32 ((n >>> k) ||| (n <<< (32 - k)))

def bsig0 (x : Nat) : Nat := (rotr32 2 x) ^^^ (rotr32 13 x) ^^^ (rotr32 22 x)

def bsig1 (x : Nat) : Nat := (rotr32 6 x) ^^^ (rotr32 11 x) ^^^ (rotr32 25 x)

def ssig0 (x : Nat) : Nat := (rotr32 7 x) ^^^ (rotr32 18 x) ^^^ (x >>> 3)

def ssig1 (x : Nat) : Nat := (rotr32 17 x) ^^^ (rotr32 19 x) ^^^ (x >>> 10)

/-- The 64 SHA-256 round constants (FIPS 180-4, written in decimal). -/
def K256 : List Nat :=
  [1116352408, 1899447441, 3049323471, 3921009573, 961987163,
   1508970993, 2453635748, 2870763221, 3624381080, 310598401,
   607225278, 1426881987, 1925078388, 2162078206, 2614888103,
   3248222580, 3835390401, 4022224774, 264347078, 604807628,
   770255983, 1249150122, 1555081692, 1996064986, 2554220882,
   2821834349, 2952996808, 3210313671, 3336571891, 3584528711,
   113926993, 338241895, 666307205, 773529912, 1294757372,
   1396182291, 1695183700, 1986661051, 2177026350, 2456956037,
   2730485921, 2820302411, 3259730800, 3345764771, 3516065817,
   3600352804, 4094571909, 275423344, 430227734, 506948616,
   659060556, 883997877, 958139571, 1322822218, 1537002063,
   1747873779, 1955562222, 2024104815, 2227730452, 2361852424,
   2428436474, 2756734187, 3204031479, 3329325298]

/-- Working variables a–h of the compression function. -/
structure Work where
  a : Nat
  b : Nat
  c : Nat
  d : Nat
  e : Nat
  f : Nat
  g : Nat
  h : Nat
  deriving Repr, DecidableEq

/-- Initial hash value H(0) (FIPS 180-4, written in decimal). -/
def initWork : Work :=
  { a := 1779033703, b := 3144134277, c := 1013904242,
    d := 2773480762, e := 1359893119, f := 2600822924,
    g := 528734635, h := 1541459225 }

/-- Extend the 16 message-schedule words to 64. -/
def extendSched : Nat → Array Nat → Array Nat
  | 0, a => a
  | n + 1, a =>
    let i := a.size
    let v := w32 (a.getD (i - 16) 0 + ssig0 (a.getD (i - 15) 0) +
                  a.getD (i - 7) 0 + ssig1 (a.getD (i - 2) 0))
    extendSched n (a.push v)

/-- One compression round. -/
def round1 (w : Work) (kw : Nat × Nat) : Work :=
  let ch := (w.e &&& w.f) ^^^ ((w.e ^^^ 0xffffffff) &&& w.g)
  let maj := (w.a &&& w.b) ^^^ (w.a &&& w.c) ^^^ (w.b &&& w.c)
  let t1 := w32 (w.h + bsig1 w.e + ch + kw.1 + kw.2)
  let t2 := w32 (bsig0 w.a + maj)
  { a := w32 (t1 + t2), b := w.a, c := w.b, d := w.c,
    e := w32 (w.d + t1), f := w.e, g := w.f, h := w.g }

/-- Compress one 16-word block into the running hash. -/
def compressBlock (hs : Work) (block : List Nat) : Work :=
  let ws := (extendSched 48 block.toArray).toList
  let r := (K256.zip ws).foldl round1 hs
  { a := w32 (hs.a + r.a), b := w32 (hs.b + r.b), c := w32 (hs.c + r.c), d := w32 (hs.d + r.d),
    e := w32 (hs.e + r.e), f := w32 (hs.f + r.f), g := w32 (hs.g + r.g), h := w32 (hs.h + r.h) }

/-- Big-endian 4-byte groups to 32-bit words. -/
def toWords : List Nat → List Nat
  | b0 :: b1 :: b2 :: b3 :: rest => ((b0 <<< 24) ||| (b1 <<< 16) ||| (b2 <<< 8) ||| b3) :: toWords rest
  | _ => []

/-- Split a word list into 16-word blocks (fuel = list length). -/
def chunkBlocksAux : Nat → List Nat → List (List Nat)
  | 0, _ => []
  | _, [] => []
  | fuel + 1, w :: ws => ((w :: ws).take 16) :: chunkBlocksAux fuel ((w :: ws).drop 16)

/-- Split a word list into 16-word blocks. -/
def chunkBlocks (ws : List Nat) : List (List Nat) := chunkBlocksAux ws.length ws

/-- The message length in bits as 8 big-endian bytes. -/
def lenBE8 (n : Nat) : List Nat :=
  [(n >>> 56) &&& 255, (n >>> 48) &&& 255, (n >>> 40) &&& 255, (n >>> 32) &&& 255,
   (n >>> 24) &&& 255, (n >>> 16) &&& 255, (n >>> 8) &&& 255, n &&& 255]

/-- SHA-256 padding: 0x80, zeros to 56 mod 64, then the bit length. -/
def sha256pad (msg : List Nat) : List Nat :=
  msg ++ 0x80 :: List.replicate ((119 - (msg.length % 64)) % 64) 0 ++ lenBE8 (msg.length * 8)

/-- A 32-bit word as 4 big-endian bytes. -/
def wordBE4 (n : Nat) : List Nat :=
  [(n >>> 24) &&& 255, (n >>> 16) &&& 255, (n >>> 8) &&& 255, n &&& 255]

/-- SHA-256 digest (32 bytes) of a byte list. -/
def sha256 (msg : List Nat) : List Nat :=
  let final := (chunkBlocks (toWords (sha256pad msg))).foldl compressBlock initWork
  wordBE4 final.a ++ wordBE4 final.b ++ wordBE4 final.c ++ wordBE4 final.d ++
  wordBE4 final.e ++ wordBE4 final.f ++ wordBE4 final.g ++ wordBE4 final.h

def hexDigit (n : Nat) : Char := if n < 10 then Char.ofNat (48 + n) else Char.ofNat (87 + n)

/-- A byte as two lowercase hex digits. -/
def byteHex (b : Nat) : String := String.mk [hexDigit (b / 16), hexDigit (b % 16)]

/-- Lowercase hex encoding of a byte list. -/
def bytesHex (bs : List Nat) : String := String.join (bs.map byteHex)

/-- SHA-256 as a lowercase hex string (`Buffer.from(h).toString("hex")`). -/
def sha256hex (msg : List Nat) : String := bytesHex (sha256 msg)

/-- UTF-8 encoding of one character (`TextEncoder`). -/
def utf8Char (c : Char) : List Nat :=
  let n := c.toNat
  if n < 0x80 then [n]
  else if n < 0x800 then [0xc0 ||| (n >>> 6), 0x80 ||| (n &&& 0x3f)]
  else if n < 0x10000 then
    [0xe0 ||| (n >>> 12), 0x80 ||| ((n >>> 6) &&& 0x3f), 0x80 ||| (n &&& 0x3f)]
  else
    [0xf0 ||| (n >>> 18), 0x80 ||| ((n >>> 12) &&& 0x3f),
     0x80 ||| ((n >>> 6) &&& 0x3f), 0x80 ||| (n &&& 0x3f)]

/-- UTF-8 encoding of a string. -/
def utf8Bytes (s : String) : List Nat := (s.data.map utf8Char).flatten

/-- `hashObject` restricted to a pre-serialized canonical string:
`SHA256(TextEncoder().encode(stringify(obj)))` as lowercase hex. -/
def hashStr (s : String) : String := sha256hex (utf8Bytes s)

/-! ## Canonical encoding (`safe-stable-stringify`)

`stringify` emits JSON with object keys sorted lexicographically (by code
unit; all keys in this protocol are ASCII), no whitespace, and entries with
value `undefined` omitted.  The embedding is shape-wise: each TypeScript
object literal that the source hashes is translated to a `jObj` call whose
field list carries exactly the keys present at runtime (an `Option` field
that is `none` contributes no entry, matching `undefined` omission), and
`jObj` itself sorts the fields, exactly as `safe-stable-stringify` does. -/

/-- JSON string escaping as `JSON.stringify` performs it. -/
def escChar (c : Char) : String :=
  if c = '"' then "\\\""
  else if c = '\\' then "\\\\"
  else if c = '\n' then "\\n"
  else if c = '\t' then "\\t"
  else if c = '\r' then "\\r"
  else if c.toNat = 8 then "\\b"
  else if c.toNat = 12 then "\\f"
  else if c.toNat < 32 then "\\u00" ++ byteHex c.toNat
  else String.singleton c

/-- A JSON string literal. -/
def jStr (s : String) : String := "\"" ++ String.join (s.data.map escChar) ++ "\""

/-- A JSON integer literal (all protocol numbers are integers). -/
def jNum (n : Int) : String := toString n

/-- An optional string: JSON `null` for JavaScript `null`. -/
def jNullOr : Option String → String
  | none => "null"
  | some s => jStr s

/-- A JSON array from pre-rendered element strings. -/
def jArr (xs : List String) : String := "[" ++ String.intercalate "," xs ++ "]"

/-- Lexicographic code-unit comparison on character lists (the order
`Array.prototype.sort` uses on the ASCII keys of this protocol). -/
def leChars : List Char → List Char → Bool
  | [], _ => true
  | _ :: _, [] => false
  | a :: as, b :: bs =>
    if a.toNat < b.toNat then true
    else if b.toNat < a.toNat then false
    else leChars as bs

/-- Lexicographic code-unit comparison on strings. -/
def strLe (a b : String) : Bool := leChars a.data b.data

/-- Insert a field into a key-sorted field list. -/
def insertField (kv : String × String) : List (String × String) → List (String × String)
  | [] => [kv]
  | x :: xs => if strLe kv.1 x.1 then kv :: x :: xs else x :: insertField kv xs

/-- Sort fields by key (lexicographic, as `safe-stable-stringify` sorts). -/
def sortFields (l : List (String × String)) : List (String × String) :=
  l.foldr insertField []

/-- A JSON object with sorted keys from (key, pre-rendered value) pairs. -/
def jObj (fields : List (String × String)) : String :=
  "\x7b" ++ String.intercalate "," ((sortFields fields).map fun kv => jStr kv.1 ++ ":" ++ kv.2) ++ "\x7d"

/-- An optional field: present keys only (an `undefined` value is omitted). -/
def optField (k : String) (f : α → String) : Option α → List (String × String)
  | none => []
  | some v => [(k, f v)]

/-! ## Data model (`packages/core/src/types.ts`) -/

/-- `EphemeralPolicy {mode, days?, seconds?}`; `mode` is one of
`"infinite" | "rolling-window" | "ttl"` (kept as a string, as in the
source, which switches on string values). -/
structure Retention where
  mode : String
  days : Option Int
  seconds : Option Int
  deriving Repr, DecidableEq

/-- The canonical encoding of a retention policy object. -/
def retentionJ (r : Retention) : String :=
  jObj ([("mode", jStr r.mode)] ++ optField "days" jNum r.days ++ optField "seconds" jNum r.seconds)

/-- `SerializableMember` / runtime member records: role sets are embedded as
lists in insertion order (JavaScript `Set` iterates in insertion order). -/
structure Member where
  userId : String
  roles : List String
  nickname : Option String
  joinedAt : Int
  deriving Repr, DecidableEq

/-- `Channel {id, name, kind, retention?}`. -/
structure Channel where
  id : String
  name : String
  kind : String
  retention : Option Retention
  deriving Repr, DecidableEq

/-- `Role {id, name, permissions}`. -/
structure Role where
  id : String
  name : String
  permissions : List String
  deriving Repr, DecidableEq

/-- `Ban {userId, reason?, bannedAt}`. -/
structure Ban where
  userId : String
  reason : Option String
  bannedAt : Int
  deriving Repr, DecidableEq

/-- `SerializableGuildState`: the object built by `serializeState` (Map and
Set collections as entry arrays in iteration order).  The runtime object
carries an `access` key (set by `serializeState`) even though the declared
interface omits it. -/
structure SerializableGuildState where
  guildId : String
  name : String
  description : String
  ownerId : String
  channels : List (String × Channel)
  members : List (String × Member)
  roles : List (String × Role)
  bans : List (String × Ban)
  access : String
  deriving Repr, DecidableEq

/-- Event bodies, the discriminated union `EventBody` (tagged by `type`).
`memberUpdate` models the `"MEMBER_UPDATE"` case that `applyEvent`
dispatches on; optional fields model keys that may be absent at runtime.
The `guildCreate` constructor carries the runtime keys a client sends:
`access` and `encryptedGroupKey` from `CgpClient.createGuild`. -/
inductive Body where
  | guildCreate (guildId name : String) (description : Option String)
      (access : Option String) (encryptedGroupKey : Option String)
  | channelCreate (guildId channelId name kind : String) (retention : Option Retention)
  | message (guildId channelId messageId content : String)
      (replyTo : Option String) (iv : Option String) (encrypted : Option Bool)
  | editMessage (guildId channelId messageId newContent : String)
  | deleteMessage (guildId channelId messageId : String) (reason : Option String)
  | forkFrom (guildId parentGuildId : String) (parentSeq : Int)
      (parentRootHash : String) (note : Option String)
  | roleAssign (guildId userId roleId : String) (encryptedGroupKey : Option String)
  | roleRevoke (guildId userId roleId : String)
  | banUser (guildId userId : String) (reason : Option String)
  | unbanUser (guildId userId : String)
  | checkpoint (guildId rootHash : String) (seq : Int) (state : SerializableGuildState)
  | ephemeralPolicyUpdate (guildId channelId : String) (retention : Retention)
  | memberUpdate (guildId : String) (nickname : Option String) (avatar : Option String)
  deriving Repr, DecidableEq

/-- The `type` discriminator string of a body. -/
def Body.type : Body → String
  | .guildCreate .. => "GUILD_CREATE"
  | .channelCreate .. => "CHANNEL_CREATE"
  | .message .. => "MESSAGE"
  | .editMessage .. => "EDIT_MESSAGE"
  | .deleteMessage .. => "DELETE_MESSAGE"
  | .forkFrom .. => "FORK_FROM"
  | .roleAssign .. => "ROLE_ASSIGN"
  | .roleRevoke .. => "ROLE_REVOKE"
  | .banUser .. => "BAN_USER"
  | .unbanUser .. => "UNBAN_USER"
  | .checkpoint .. => "CHECKPOINT"
  | .ephemeralPolicyUpdate .. => "EPHEMERAL_POLICY_UPDATE"
  | .memberUpdate .. => "MEMBER_UPDATE"

/-- The `guildId` field of a body (present on every body type). -/
def Body.guildId : Body → String
  | .guildCreate g .. => g
  | .channelCreate g .. => g
  | .message g .. => g
  | .editMessage g .. => g
  | .deleteMessage g .. => g
  | .forkFrom g .. => g
  | .roleAssign g .. => g
  | .roleRevoke g .. => g
  | .banUser g .. => g
  | .unbanUser g .. => g
  | .checkpoint g .. => g
  | .ephemeralPolicyUpdate g .. => g
  | .memberUpdate g .. => g

/-- `GuildEvent`: `id`, `seq`, `prevHash` (`null` for seq 0), `createdAt`
(ms since epoch), `author` (hex public key), `body`, `signature`. -/
structure GuildEvent where
  id : String
  seq : Int
  prevHash : Option String
  createdAt : Int
  author : String
  body : Body
  signature : String
  deriving Repr, DecidableEq

/-! ## Canonical encodings of the hashed objects -/

/-- Canonical encoding of a channel record. -/
def channelJ (c : Channel) : String :=
  jObj ([("id", jStr c.id), ("kind", jStr c.kind), ("name", jStr c.name)] ++
    optField "retention" retentionJ c.retention)

/-- Canonical encoding of a serialized member (`{...member, roles: [...]}`;
an absent nickname contributes no key). -/
def memberJ (m : Member) : String :=
  jObj ([("joinedAt", jNum m.joinedAt), ("roles", jArr (m.roles.map jStr)),
    ("userId", jStr m.userId)] ++ optField "nickname" jStr m.nickname)

/-- Canonical encoding of a role record. -/
def roleJ (r : Role) : String :=
  jObj [("id", jStr r.id), ("name", jStr r.name),
    ("permissions", jArr (r.permissions.map jStr))]

/-- Canonical encoding of a ban record (`reason: undefined` is omitted). -/
def banJ (b : Ban) : String :=
  jObj ([("bannedAt", jNum b.bannedAt), ("userId", jStr b.userId)] ++
    optField "reason" jStr b.reason)

/-- Canonical encoding of a Map entry array `[[key, value], ...]`. -/
def entriesJ (f : α → String) (l : List (String × α)) : String :=
  jArr (l.map fun kv => jArr [jStr kv.1, f kv.2])

/-- Canonical encoding of the object `serializeState` returns. -/
def serializedStateJ (s : SerializableGuildState) : String :=
  jObj [("access", jStr s.access),
        ("bans", entriesJ banJ s.bans),
        ("channels", entriesJ channelJ s.channels),
        ("description", jStr s.description),
        ("guildId", jStr s.guildId),
        ("members", entriesJ memberJ s.members),
        ("name", jStr s.name),
        ("ownerId", jStr s.ownerId),
        ("roles", entriesJ roleJ s.roles)]

/-- Canonical encoding of an event body (keys as the client constructs the
literal; `jObj` sorts them as `safe-stable-stringify` would). -/
def bodyJ : Body → String
  | .guildCreate g n d a e =>
    jObj ([("guildId", jStr g), ("name", jStr n), ("type", jStr "GUILD_CREATE")] ++
      optField "description" jStr d ++ optField "access" jStr a ++
      optField "encryptedGroupKey" jStr e)
  | .channelCreate g c n k r =>
    jObj ([("channelId", jStr c), ("guildId", jStr g), ("kind", jStr k),
      ("name", jStr n), ("type", jStr "CHANNEL_CREATE")] ++ optField "retention" retentionJ r)
  | .message g c m cont rt iv enc =>
    jObj ([("channelId", jStr c), ("content", jStr cont), ("guildId", jStr g),
      ("messageId", jStr m), ("type", jStr "MESSAGE")] ++
      optField "replyTo" jStr rt ++ optField "iv" jStr iv ++
      optField "encrypted" (fun b => if b then "true" else "false") enc)
  | .editMessage g c m nc =>
    jObj [("channelId", jStr c), ("guildId", jStr g), ("messageId", jStr m),
      ("newContent", jStr nc), ("type", jStr "EDIT_MESSAGE")]
  | .deleteMessage g c m r =>
    jObj ([("channelId", jStr c), ("guildId", jStr g), ("messageId", jStr m),
      ("type", jStr "DELETE_MESSAGE")] ++ optField "reason" jStr r)
  | .forkFrom g p ps prh note =>
    jObj ([("guildId", jStr g), ("parentGuildId", jStr p), ("parentRootHash", jStr prh),
      ("parentSeq", jNum ps), ("type", jStr "FORK_FROM")] ++ optField "note" jStr note)
  | .roleAssign g u r e =>
    jObj ([("guildId", jStr g), ("roleId", jStr r), ("type", jStr "ROLE_ASSIGN"),
      ("userId", jStr u)] ++ optField "encryptedGroupKey" jStr e)
  | .roleRevoke g u r =>
    jObj [("guildId", jStr g), ("roleId", jStr r), ("type", jStr "ROLE_REVOKE"),
      ("userId", jStr u)]
  | .banUser g u r =>
    jObj ([("guildId", jStr g), ("type", jStr "BAN_USER"), ("userId", jStr u)] ++
      optField "reason" jStr r)
  | .unbanUser g u =>
    jObj [("guildId", jStr g), ("type", jStr "UNBAN_USER"), ("userId", jStr u)]
  | .checkpoint g rh sq st =>
    jObj [("guildId", jStr g), ("rootHash", jStr rh), ("seq", jNum sq),
      ("state", serializedStateJ st), ("type", jStr "CHECKPOINT")]
  | .ephemeralPolicyUpdate g c r =>
    jObj [("channelId", jStr c), ("guildId", jStr g), ("retention", retentionJ r),
      ("type", jStr "EPHEMERAL_POLICY_UPDATE")]
  | .memberUpdate g n a =>
    jObj ([("guildId", jStr g), ("type", jStr "MEMBER_UPDATE")] ++
      optField "nickname" jStr n ++ optField "avatar" jStr a)

/-- Canonical encoding of a full `GuildEvent` object — all seven keys,
including `id` and `signature`.  This is the object the relay actually
passes to `computeEventId` at `server.ts` (`computeEventId({ ...fullEvent })`
with `id` still `""`): the spread copies every field, it does not strip
`id`/`signature`. -/
def fullEventJ (e : GuildEvent) : String :=
  jObj [("author", jStr e.author), ("body", bodyJ e.body), ("createdAt", jNum e.createdAt),
    ("id", jStr e.id), ("prevHash", jNullOr e.prevHash), ("seq", jNum e.seq),
    ("signature", jStr e.signature)]

/-- Canonical encoding of the five-field record
`{seq, prevHash, createdAt, author, body}` — the `Omit<GuildEvent, "id" |
"signature">` shape that `computeEventId`'s declaration takes and that
`validateChain` rebuilds literally. -/
def unsignedJ (seq : Int) (prevHash : Option String) (createdAt : Int)
    (author : String) (body : Body) : String :=
  jObj [("author", jStr author), ("body", bodyJ body), ("createdAt", jNum createdAt),
    ("prevHash", jNullOr prevHash), ("seq", jNum seq)]

/-- `computeEventId` applied to an actual five-field record (as in
`validateChain`): `hashObject({seq, prevHash, createdAt, author, body})`. -/
def computeEventId (seq : Int) (prevHash : Option String) (createdAt : Int)
    (author : String) (body : Body) : String :=
  hashStr (unsignedJ seq prevHash createdAt author body)

/-- The id the relay actually assigns: `computeEventId({ ...fullEvent })`
evaluated on the full event object (whose `id` field is `""` at that
point and whose `signature` field is already populated for client
publishes, `""` for relay-authored checkpoints). -/
def relayComputedId (e : GuildEvent) : String := hashStr (fullEventJ e)

/-- Canonical encoding of `{body, author, createdAt}`, the signed object
(`unsignedForSig` in `server.ts` / `publish` in `client.ts`). -/
def sigJ (body : Body) (author : String) (createdAt : Int) : String :=
  jObj [("author", jStr author), ("body", bodyJ body), ("createdAt", jNum createdAt)]

/-- The digest a signature must verify against:
`hashObject({body, author, createdAt})`. -/
def sigHash (body : Body) (author : String) (createdAt : Int) : String :=
  hashStr (sigJ body author createdAt)

/-- `hashObject(serializedState)` as computed by the checkpoint loop. -/
def hashSerializedState (s : SerializableGuildState) : String :=
  hashStr (serializedStateJ s)

/-- The guild id the reference client chooses in `createGuild`:
`hashObject({author: pub, name, createdAt})` (`tempId` in `client.ts`). -/
def tempGuildId (author name : String) (createdAt : Int) : String :=
  hashStr (jObj [("author", jStr author), ("createdAt", jNum createdAt), ("name", jStr name)])

/-! ## Insertion-ordered maps (JavaScript `Map`) and sets (`Set`)

A JavaScript `Map` iterates in insertion order; `set` on an existing key
updates the value in place (keeping its position), `set` on a new key
appends, `delete` removes the entry.  Association lists with these three
operations model that exactly. -/

/-- `Map.prototype.get`. -/
def mapGet (m : List (String × α)) (k : String) : Option α :=
  match m with
  | [] => none
  | kv :: rest => if kv.1 = k then some kv.2 else mapGet rest k

/-- `Map.prototype.has`. -/
def mapHas (m : List (String × α)) (k : String) : Bool :=
  (mapGet m k).isSome

/-- `Map.prototype.set`: update in place, or append a new entry. -/
def mapSet (m : List (String × α)) (k : String) (v : α) : List (String × α) :=
  match m with
  | [] => [(k, v)]
  | kv :: rest => if kv.1 = k then (k, v) :: rest else kv :: mapSet rest k v

/-- `Map.prototype.delete`. -/
def mapDelete (m : List (String × α)) (k : String) : List (String × α) :=
  match m with
  | [] => []
  | kv :: rest => if kv.1 = k then rest else kv :: mapDelete rest k

/-- `Set.prototype.add` (no effect when already present; appends otherwise). -/
def setAdd (s : List String) (x : String) : List String :=
  if s.contains x then s else s ++ [x]

/-- `Set.prototype.delete`. -/
def setDelete (s : List String) (x : String) : List String :=
  s.filter (fun y => y ≠ x)

/-! ## Guild state and the reducer (`packages/core/src/state.ts`) -/

/-- `GuildState`: the reduced structural view of a guild. -/
structure GuildState where
  guildId : String
  name : String
  description : Option String
  ownerId : String
  channels : List (String × Channel)
  roles : List (String × Role)
  members : List (String × Member)
  bans : List (String × Ban)
  createdAt : Int
  headSeq : Int
  headHash : String
  access : String
  deriving Repr, DecidableEq

/-- `body.access || "public"`: the JavaScript falsy-or (absent or empty
string both yield `"public"`). -/
def accessOrPublic : Option String → String
  | none => "public"
  | some a => if a = "" then "public" else a

/-- `createInitialState(event)`: rejects a non-genesis body, seeds
`ownerId = author` with a single owner member record. -/
def createInitialState (e : GuildEvent) : Except String GuildState :=
  match e.body with
  | .guildCreate g n d a _ =>
    .ok { guildId := g, name := n, description := d, ownerId := e.author,
          channels := [], roles := [],
          members := [(e.author, { userId := e.author, roles := ["owner"],
                                   nickname := none, joinedAt := e.createdAt })],
          bans := [], createdAt := e.createdAt, headSeq := e.seq, headHash := e.id,
          access := accessOrPublic a }
  | _ => .error "First event must be GUILD_CREATE"

/-- `serializeState(state)`: `description || ""`, collections as entry
arrays in iteration order, role sets as arrays. -/
def serializeState (s : GuildState) : SerializableGuildState :=
  { guildId := s.guildId, name := s.name,
    description := (match s.description with | none => "" | some d => d),
    ownerId := s.ownerId, channels := s.channels, members := s.members,
    roles := s.roles, bans := s.bans, access := s.access }

/-- `applyEvent(state, event)`: the pure reducer.  Collections not touched
by the event type are passed through unchanged (aliased); `headSeq` and
`headHash` are always set from the event.  The `"MEMBER_UPDATE"` branch of
the source reads a variable `newState` that is not declared anywhere in the
function, so executing it throws a `ReferenceError`; that branch is
embedded as `Except.error`. -/
def applyEvent (s : GuildState) (e : GuildEvent) : Except String GuildState :=
  match e.body with
  | .channelCreate _ c n k r =>
    .ok { s with channels := mapSet s.channels c { id := c, name := n, kind := k, retention := r },
                 headSeq := e.seq, headHash := e.id }
  | .roleAssign _ u r _ =>
    let member := match mapGet s.members u with
      | some m => m
      | none => { userId := u, roles := [], nickname := none, joinedAt := e.createdAt }
    .ok { s with members := mapSet s.members u { member with roles := setAdd member.roles r },
                 headSeq := e.seq, headHash := e.id }
  | .roleRevoke _ u r =>
    (match mapGet s.members u with
     | some m =>
       .ok { s with members := mapSet s.members u { m with roles := setDelete m.roles r },
                    headSeq := e.seq, headHash := e.id }
     | none => .ok { s with headSeq := e.seq, headHash := e.id })
  | .banUser _ u reason =>
    let bans := mapSet s.bans u { userId := u, reason := reason, bannedAt := e.createdAt }
    let members := if mapHas s.members u then mapDelete s.members u else s.members
    .ok { s with bans := bans, members := members, headSeq := e.seq, headHash := e.id }
  | .unbanUser _ u =>
    .ok { s with bans := mapDelete s.bans u, headSeq := e.seq, headHash := e.id }
  | .ephemeralPolicyUpdate _ c r =>
    (match mapGet s.channels c with
     | some ch =>
       .ok { s with channels := mapSet s.channels c { ch with retention := some r },
                    headSeq := e.seq, headHash := e.id }
     | none => .ok { s with headSeq := e.seq, headHash := e.id })
  | .memberUpdate _ _ _ => .error "newState is not defined"
  | _ => .ok { s with headSeq := e.seq, headHash := e.id }

/-- Rebuild state from a full log: `createInitialState(events[0])` then
`applyEvent` over the remaining events — the loop the relay runs in
`appendSequencedEvent`, `createCheckpoints` and `prune`. -/
def foldState : List GuildEvent → Except String GuildState
  | [] => .error "empty log"
  | e :: rest => (createInitialState e).bind fun s0 => rest.foldlM applyEvent s0

/-! ## Validator (`core/src/validator.ts`) -/

/-- `validateEvent(state, event)`: throws (here `.error`) on a permission
or eligibility failure, returns normally otherwise. -/
def validateEvent (s : GuildState) (e : GuildEvent) : Except String Unit :=
  let author := e.author
  let isOwner := s.ownerId = author
  let isAdmin := match mapGet s.members author with
    | some m => m.roles.contains "admin" || m.roles.contains "owner"
    | none => false
  let hasPermission := isOwner || isAdmin
  let permGuard : Except String Unit :=
    if hasPermission then .ok ()
    else .error ("User " ++ author ++ " does not have permission for " ++ e.body.type)
  match e.body with
  | .channelCreate .. => permGuard
  | .roleAssign .. => permGuard
  | .roleRevoke .. => permGuard
  | .banUser .. => permGuard
  | .unbanUser .. => permGuard
  | .ephemeralPolicyUpdate .. => permGuard
  | .message _ c _ _ _ _ _ =>
    if ¬ mapHas s.channels c then .error ("Channel " ++ c ++ " does not exist")
    else if mapHas s.bans author then .error ("User " ++ author ++ " is banned")
    else if s.access = "private" ∧ ¬ mapHas s.members author then
      .error ("Guild is private. User " ++ author ++ " is not a member.")
    else .ok ()
  | _ => .ok ()

/-! ## Chain validator (`core/src/log.ts`) -/

/-- The loop body of `validateChain`: `prevId` is `some (previous id)` from
the second element on, `i` the current index. -/
def chainCheck (prevId : Option String) (i : Nat) : List GuildEvent → Bool
  | [] => true
  | ev :: rest =>
    if ev.seq ≠ (i : Int) then false
    else if i = 0 ∧ ev.prevHash ≠ none then false
    else if 0 < i ∧ ev.prevHash ≠ prevId then false
    else if computeEventId ev.seq ev.prevHash ev.createdAt ev.author ev.body ≠ ev.id then false
    else chainCheck (some ev.id) (i + 1) rest

/-- `validateChain(events)`: seq density, prevHash links, and id
recomputation over the five-field record; nothing else (the source comments
that signature verification is separate). -/
def validateChain (events : List GuildEvent) : Bool := chainCheck none 0 events

/-! ## Sequencing engine (`packages/relay/src/server.ts`,
`appendSequencedEvent`)

The engine is embedded per guild: `log` is the stored log for
`body.guildId` (the key every store access in `appendSequencedEvent`
uses), `cache` the `stateCache` entry for that guild.  All steps for one
publish run inside the per-guild mutex, so one ingest is one pure
transition.  A thrown rebuild error escapes `processEvent` and is reported
upstream as `INTERNAL_ERROR` by `handleMessage`; it is modelled as the
`.error` result. -/

/-- A `PUBLISH` payload `{body, author, signature, createdAt}`. -/
structure Publish where
  body : Body
  author : String
  signature : String
  createdAt : Int
  deriving Repr, DecidableEq

/-- An `["ERROR", {code, message}]` frame sent back to the publisher. -/
structure ErrFrame where
  code : String
  message : String
  deriving Repr, DecidableEq

/-- The observable outcome of one ingest: the stored log and cache after,
the error frame sent to the publisher (if any), the events broadcast to
subscribers, and the accepted event returned to the caller. -/
structure IngestResult where
  log : List GuildEvent
  cache : Option GuildState
  reply : Option ErrFrame
  broadcast : List GuildEvent
  accepted : Option GuildEvent
  deriving Repr, DecidableEq

/-- `seq = lastEvent ? lastEvent.seq + 1 : 0`. -/
def assignSeq (log : List GuildEvent) : Int :=
  match log.getLast? with
  | some le => le.seq + 1
  | none => 0

/-- `prevHash = lastEvent ? lastEvent.id : null`. -/
def assignPrev (log : List GuildEvent) : Option String :=
  (log.getLast?).map (·.id)

/-- The full event the engine builds: seq/prevHash assigned, then
`fullEvent.id = computeEventId({ ...fullEvent })` — the hash is taken over
the whole object with `id` still `""` and the signature present. -/
def builtEvent (log : List GuildEvent) (p : Publish) : GuildEvent :=
  let ev0 : GuildEvent :=
    { id := "", seq := assignSeq log, prevHash := assignPrev log,
      createdAt := p.createdAt, author := p.author, body := p.body, signature := p.signature }
  { ev0 with id := relayComputedId ev0 }

/-- The state-cache step for a non-genesis publish: use the cached state
when `cached.headSeq == seq - 1`, otherwise rebuild from the stored log
(and write the rebuild into the cache).  `.ok none` is the
`history.length === 0` early return (no reply is sent there); `.error`
is a rebuild exception.  Returns the state to validate against together
with the cache content after this step. -/
def acquireState (log : List GuildEvent) (cache : Option GuildState) (seq : Int) :
    Except String (Option (GuildState × Option GuildState)) :=
  let rebuild : Except String (Option (GuildState × Option GuildState)) :=
    match log with
    | [] => .ok none
    | _ => (foldState log).map fun st => some (st, some st)
  match cache with
  | some st => if st.headSeq = seq - 1 then .ok (some (st, cache)) else rebuild
  | none => rebuild

/-- `appendSequencedEvent`: signature check, then validation against the
cached or rebuilt state (non-genesis) or the `GUILD_CREATE` requirement
(genesis), then append and broadcast.  `verifyFn` abstracts
`verify(author, msgHash, signature)` from `core/src/crypto.ts`, which is
total (it catches exceptions from malformed keys or signatures and returns
`false`). -/
def appendSequencedEvent (verifyFn : String → String → String → Bool)
    (log : List GuildEvent) (cache : Option GuildState) (p : Publish) :
    Except String IngestResult :=
  let seq := assignSeq log
  let fullEvent := builtEvent log p
  let msgHash := sigHash p.body p.author p.createdAt
  if verifyFn p.author msgHash p.signature then
    if 0 < seq then
      match acquireState log cache seq with
      | .error msg => .error msg
      | .ok none =>
        .ok { log := log, cache := cache, reply := none, broadcast := [], accepted := none }
      | .ok (some (st, cache1)) =>
        match validateEvent st fullEvent with
        | .error msg =>
          .ok { log := log, cache := cache1,
                reply := some { code := "VALIDATION_FAILED", message := msg },
                broadcast := [], accepted := none }
        | .ok _ =>
          match applyEvent st fullEvent with
          | .error msg =>
            .ok { log := log, cache := cache1,
                  reply := some { code := "VALIDATION_FAILED", message := msg },
                  broadcast := [], accepted := none }
          | .ok newSt =>
            .ok { log := log ++ [fullEvent], cache := some newSt, reply := none,
                  broadcast := [fullEvent], accepted := some fullEvent }
    else
      if p.body.type ≠ "GUILD_CREATE" then
        .ok { log := log, cache := cache,
              reply := some { code := "VALIDATION_FAILED",
                              message := "First event must be GUILD_CREATE" },
              broadcast := [], accepted := none }
      else
        match createInitialState fullEvent with
        | .error msg => .error msg
        | .ok st =>
          .ok { log := log ++ [fullEvent], cache := some st, reply := none,
                broadcast := [fullEvent], accepted := some fullEvent }
  else
    .ok { log := log, cache := cache,
          reply := some { code := "INVALID_SIGNATURE", message := "Signature verification failed" },
          broadcast := [], accepted := none }

/-! ## Checkpoint loop (`createCheckpoints`) for one guild -/

/-- One guild's iteration of `createCheckpoints`: skip an empty log, skip
when the state rebuild throws (logged and `continue`), skip when the last
event is already a `CHECKPOINT`; otherwise build the checkpoint event —
id computed while `signature` is still `""`, signature attached after.
`signFn` abstracts `sign(relayPrivateKey, digest)`. -/
def createCheckpointForGuild (guildId relayPub : String) (signFn : String → String)
    (now : Int) (events : List GuildEvent) : Option GuildEvent :=
  match events with
  | [] => none
  | _ =>
    match foldState events with
    | .error _ => none
    | .ok state =>
      match events.getLast? with
      | none => none
      | some lastEvent =>
        if lastEvent.body.type = "CHECKPOINT" then none
        else
          let serializedState := serializeState state
          let stateHash := hashSerializedState serializedState
          let body := Body.checkpoint guildId stateHash (lastEvent.seq + 1) serializedState
          let ev0 : GuildEvent :=
            { id := "", seq := lastEvent.seq + 1, prevHash := some lastEvent.id,
              createdAt := now, author := relayPub, body := body, signature := "" }
          let ev1 := { ev0 with id := relayComputedId ev0 }
          some { ev1 with signature := signFn (sigHash body relayPub now) }

/-! ## Retention prune (`prune`) for one guild -/

/-- The delete condition: the event is a `MESSAGE`, its channel exists in
the rebuilt state, the channel's retention is truthy with `mode === "ttl"`
and truthy `seconds` (so `seconds: 0` never prunes), and
`(now - createdAt) / 1000 > seconds` (exact rational division). -/
def delCond (st : GuildState) (now : Int) (ev : GuildEvent) : Bool :=
  match ev.body with
  | .message _ c _ _ _ _ _ =>
    (match mapGet st.channels c with
     | some ch =>
       (match ch.retention with
        | some r =>
          r.mode == "ttl" &&
          (match r.seconds with
           | some sec => sec != 0 && decide ((((now - ev.createdAt : Int) : Rat) / 1000) > (sec : Rat))
           | none => false)
        | none => false)
     | none => false)
  | _ => false

/-- `MemoryStore.deleteEvent(guildId, seq)`: remove the entry at the
indexed position for `seq` (for a log with pairwise distinct seqs this is
the unique event with that seq). -/
def removeFirstSeq (l : List GuildEvent) (s : Int) : List GuildEvent :=
  match l with
  | [] => []
  | e :: rest => if e.seq = s then rest else e :: removeFirstSeq rest s

/-- One guild's iteration of `prune`: skip an empty log or a failing state
rebuild; otherwise collect the seqs of all messages meeting `delCond` and
delete them one by one. -/
def pruneGuild (now : Int) (events : List GuildEvent) : List GuildEvent :=
  match events with
  | [] => events
  | _ =>
    match foldState events with
    | .error _ => events
    | .ok st =>
      let seqsToDelete := (events.filter (delCond st now)).map (·.seq)
      seqsToDelete.foldl removeFirstSeq events

/-- Decidable equality for `Except` results (used to evaluate engine
outcomes at concrete inputs). -/
instance instDecEqExcept {ε α : Type} [DecidableEq ε] [DecidableEq α] :
    DecidableEq (Except ε α) := fun a b =>
  match a, b with
  | .ok x, .ok y =>
    if h : x = y then .isTrue (by rw [h]) else .isFalse (fun c => h (Except.ok.inj c))
  | .error x, .error y =>
    if h : x = y then .isTrue (by rw [h]) else .isFalse (fun c => h (Except.error.inj c))
  | .ok _, .error _ => .isFalse (fun c => Except.noConfusion c)
  | .error _, .ok _ => .isFalse (fun c => Except.noConfusion c)

/-! ## The spec-side chain predicate

`chainSpec` is written from the actual checks of `validateChain` stated
declaratively (dense seqs from 0, prevHash links, id recomputation over the
five-field record), to characterize the function exactly. -/

/-- Declarative reading of what `validateChain` checks. -/
def chainSpec (events : List GuildEvent) : Prop :=
  ∀ (k : Nat) (ev : GuildEvent), events[k]? = some ev →
    ev.seq = (k : Int)
    ∧ (k = 0 → ev.prevHash = none)
    ∧ (∀ prev, events[k - 1]? = some prev → 0 < k → ev.prevHash = some prev.id)
    ∧ ev.id = computeEventId ev.seq ev.prevHash ev.createdAt ev.author ev.body

/-! ## Concrete fixtures for counterexamples and witnesses -/

/-- A concrete `GUILD_CREATE` publish (the shape `CgpClient.publish`
sends for a public guild, with a fixed author key, signature and clock). -/
def samplePublish : Publish :=
  { body := Body.guildCreate "x" "Test" none (some "public") none,
    author := "02aabb", signature := "00ff", createdAt := 1700000000000 }

/-- The genesis event the engine builds and appends for `samplePublish`. -/
def sampleGenesis : GuildEvent := builtEvent [] samplePublish

/-- The cached state the engine creates for `samplePublish`. -/
def sampleState : GuildState :=
  { guildId := "x", name := "Test", description := none, ownerId := "02aabb",
    channels := [], roles := [],
    members := [("02aabb", { userId := "02aabb", roles := ["owner"],
                             nickname := none, joinedAt := 1700000000000 })],
    bans := [], createdAt := 1700000000000, headSeq := 0,
    headHash := sampleGenesis.id, access := "public" }

/-- A one-event chain whose id is the correct five-field hash (so
`validateChain` accepts it) but whose genesis `body.guildId` is `"x"`,
not the event id, and whose signature is garbage. -/
def c3Event : GuildEvent :=
  { id := computeEventId 0 none 1700000000000 "02aabb" (Body.guildCreate "x" "G" none none none),
    seq := 0, prevHash := none, createdAt := 1700000000000, author := "02aabb",
    body := Body.guildCreate "x" "G" none none none, signature := "not-a-signature" }

/-- The publish `CgpClient.createGuild("Test")` produces: `body.guildId`
is `tempId = hashObject({author, name, createdAt})`. -/
def createGuildPublish : Publish :=
  { body := Body.guildCreate (tempGuildId "02aabb" "Test" 1700000000000) "Test"
              none (some "public") none,
    author := "02aabb", signature := "00ff", createdAt := 1700000000000 }

/-- The genesis event the engine appends for `createGuildPublish`. -/
def c4Genesis : GuildEvent := builtEvent [] createGuildPublish

/-- C8 counterexample log: genesis, a channel with `retention = {mode:
"ttl", seconds: 0}`, and an old message in it. -/
def g0 : GuildEvent :=
  { id := "id0", seq := 0, prevHash := none, createdAt := 0, author := "alice",
    body := Body.guildCreate "g" "G" none none none, signature := "s0" }

def chan0 : GuildEvent :=
  { id := "id1", seq := 1, prevHash := some "id0", createdAt := 0, author := "alice",
    body := Body.channelCreate "g" "c1" "general" "ephemeral-text"
              (some { mode := "ttl", days := none, seconds := some 0 }),
    signature := "s1" }

def msg0 : GuildEvent :=
  { id := "id2", seq := 2, prevHash := some "id1", createdAt := 0, author := "alice",
    body := Body.message "g" "c1" "m1" "hi" none none none, signature := "s2" }

/-- Witness fixtures: a state with one channel for the `MESSAGE` validator. -/
def w5State : GuildState :=
  { guildId := "g", name := "G", description := none, ownerId := "alice",
    channels := [("c1", { id := "c1", name := "general", kind := "text", retention := none })],
    roles := [], members := [], bans := [], createdAt := 0, headSeq := 0,
    headHash := "h0", access := "public" }

def w5Event : GuildEvent :=
  { id := "e1", seq := 1, prevHash := some "h0", createdAt := 5, author := "bob",
    body := Body.message "g" "c1" "m1" "hello" none none none, signature := "sig" }

/-- Witness fixtures for the engine rejection paths. -/
def w6Publish : Publish :=
  { body := Body.message "g" "c9" "m1" "hi" none none none,
    author := "bob", signature := "zz", createdAt := 7 }

def w6Genesis : GuildEvent :=
  { id := "gid", seq := 0, prevHash := none, createdAt := 0, author := "alice",
    body := Body.guildCreate "g" "G" none none none, signature := "s0" }

def w6State : GuildState :=
  { guildId := "g", name := "G", description := none, ownerId := "alice",
    channels := [], roles := [],
    members := [("alice", { userId := "alice", roles := ["owner"], nickname := none, joinedAt := 0 })],
    bans := [], createdAt := 0, headSeq := 0, headHash := "gid", access := "public" }

/-- Witness fixtures for the checkpoint loop. -/
def w7Genesis : GuildEvent :=
  { id := "gid7", seq := 0, prevHash := none, createdAt := 3, author := "alice",
    body := Body.guildCreate "g7" "G" none none none, signature := "s0" }

def w7State : GuildState :=
  { guildId := "g7", name := "G", description := none, ownerId := "alice",
    channels := [], roles := [],
    members := [("alice", { userId := "alice", roles := ["owner"], nickname := none, joinedAt := 3 })],
    bans := [], createdAt := 3, headSeq := 0, headHash := "gid7", access := "public" }

/-- Witness fixtures for the reducer frame condition. -/
def w9State : GuildState :=
  { guildId := "g", name := "G", description := some "d", ownerId := "alice",
    channels := [("c1", { id := "c1", name := "general", kind := "text", retention := none })],
    roles := [("mod", { id := "mod", name := "mod", permissions := [] })],
    members := [("alice", { userId := "alice", roles := ["owner"], nickname := none, joinedAt := 0 })],
    bans := [("eve", { userId := "eve", reason := none, bannedAt := 1 })],
    createdAt := 0, headSeq := 2, headHash := "h2", access := "private" }

def w9Event : GuildEvent :=
  { id := "h3", seq := 3, prevHash := some "h2", createdAt := 9, author := "bob",
    body := Body.forkFrom "g" "parent" 5 "rh" none, signature := "s" }

/-- Witness fixtures for the `MEMBER_UPDATE` rejection. -/
def w10Genesis : GuildEvent :=
  { id := "gidA", seq := 0, prevHash := none, createdAt := 0, author := "alice",
    body := Body.guildCreate "gA" "G" none none none, signature := "s0" }

def w10State : GuildState :=
  { guildId := "gA", name := "G", description := none, ownerId := "alice",
    channels := [], roles := [],
    members := [("alice", { userId := "alice", roles := ["owner"], nickname := none, joinedAt := 0 })],
    bans := [], createdAt := 0, headSeq := 0, headHash := "gidA", access := "public" }

def w10Publish : Publish :=
  { body := Body.memberUpdate "gA" (some "nick") none,
    author := "alice", signature := "s", createdAt := 2 }

def w10Event : GuildEvent :=
  { id := "e10", seq := 1, prevHash := some "gidA", createdAt := 2, author := "alice",
    body := Body.memberUpdate "gA" (some "nick") none, signature := "s" }

/-- Witness fixtures for the prune theorem: a ttl-5s channel, one expired
message, one fresh message, pruned at t = 100000. -/
def g8 : GuildEvent :=
  { id := "jd0", seq := 0, prevHash := none, createdAt := 0, author := "alice",
    body := Body.guildCreate "g8" "G" none none none, signature := "s0" }

def chan8 : GuildEvent :=
  { id := "jd1", seq := 1, prevHash := some "jd0", createdAt := 0, author := "alice",
    body := Body.channelCreate "g8" "c8" "eph" "ephemeral-text"
              (some { mode := "ttl", days := none, seconds := some 5 }),
    signature := "s1" }

def msg8old : GuildEvent :=
  { id := "jd2", seq := 2, prevHash := some "jd1", createdAt := 0, author := "alice",
    body := Body.message "g8" "c8" "m1" "old" none none none, signature := "s2" }

def msg8new : GuildEvent :=
  { id := "jd3", seq := 3, prevHash := some "jd2", createdAt := 99000, author := "alice",
    body := Body.message "g8" "c8" "m2" "new" none none none, signature := "s3" }

/-- The state `prune` rebuilds for the witness log. -/
def w8State : GuildState :=
  { guildId := "g8", name := "G", description := none, ownerId := "alice",
    channels := [("c8", { id := "c8", name := "eph", kind := "ephemeral-text",
                          retention := some { mode := "ttl", days := none, seconds := some 5 } })],
    roles := [],
    members := [("alice", { userId := "alice", roles := ["owner"], nickname := none, joinedAt := 0 })],
    bans := [], createdAt := 0, headSeq := 3, headHash := "jd3", access := "public" }

/-! # Theorems -/

/-- SHA-256 sanity check against the standard test vector for "abc". -/
theorem sha256_abc :
    hashStr "abc" = "ba7816bf8f01cfea414140de5dae2223b00361a396177a9cb410ff61f20015ad" := by
  decide

/-- Claim C1: the spec says every appended event's id is
`SHA256(canonical({seq, prevHash, createdAt, author, body}))` with `id`
and `signature` excluded.  The relay computes `computeEventId({
...fullEvent })`: the spread retains `id: ""` and the signature, so the
hashed canonical form has seven keys, and the assigned id differs from the
five-field hash.  Evaluated at a concrete `GUILD_CREATE` publish the
engine accepts: the stored id is the full-record hash and is not the
five-field hash the spec (and `computeEventId`'s own declared
`Omit<GuildEvent, "id" | "signature">` type) prescribes. -/
theorem appended_id_hashes_full_record :
    appendSequencedEvent (fun _ _ _ => true) [] none samplePublish =
      .ok { log := [sampleGenesis], cache := some sampleState, reply := none,
            broadcast := [sampleGenesis], accepted := some sampleGenesis }
    ∧ sampleGenesis.id ≠
        computeEventId sampleGenesis.seq sampleGenesis.prevHash sampleGenesis.createdAt
          sampleGenesis.author sampleGenesis.body := by
  constructor
  · decide
  · decide

/-- Claim C2: the spec says `validateChain` returns true on every log the
engine produces.  Because the engine assigns ids hashed over the full
seven-key record while `validateChain` recomputes the five-field hash,
`validateChain` rejects the very first event the engine appends: at a
concrete accepted `GUILD_CREATE` publish the produced one-event log fails
`validateChain`. -/
theorem engine_log_fails_validateChain :
    (appendSequencedEvent (fun _ _ _ => true) [] none samplePublish).map (·.log) =
      .ok [sampleGenesis]
    ∧ validateChain [sampleGenesis] = false := by
  constructor
  · decide
  · decide

/-- Claim C3, counterexample: the claim states `validateChain(events) = true`
iff (among other conjuncts) each signature verifies and the genesis body's
`guildId` equals the genesis event id.  `c3Event` has a correct five-field
id hash, a garbage signature, and `body.guildId = "x"` different from its
id, yet `validateChain` accepts the chain — the function checks neither
signatures nor `guildId` consistency, refuting the claimed equivalence. -/
theorem validateChain_ignores_guildId_and_signature :
    validateChain [c3Event] = true ∧ c3Event.body.guildId ≠ c3Event.id := by
  constructor
  · decide
  · decide

/-- Claim C4, counterexample: the claim says the genesis event of every accepted
log satisfies `body.guildId == event.id` (the guild id being the hash of
the genesis unsigned form).  The engine accepts the exact publish
`CgpClient.createGuild` produces — whose `body.guildId` is
`hashObject({author, name, createdAt})` — without any check against the
event id: the appended genesis has `body.guildId` different from both its
id and its five-field hash. -/
theorem genesis_guildId_differs_from_event_id :
    (appendSequencedEvent (fun _ _ _ => true) [] none createGuildPublish).map
        (fun r => (r.log, r.reply)) = .ok ([c4Genesis], none)
    ∧ c4Genesis.body.guildId ≠ c4Genesis.id
    ∧ c4Genesis.body.guildId ≠
        computeEventId c4Genesis.seq c4Genesis.prevHash c4Genesis.createdAt
          c4Genesis.author c4Genesis.body := by
  refine ⟨by decide, by decide, by decide⟩

/-- Claim C8, counterexample: the claim says that after a prune at time T no
surviving `MESSAGE` in a channel with retention `{mode: "ttl", seconds: S}`
has `createdAt < T - S*1000`.  With `S = 0` the source's truthiness guard
`channel.retention.seconds` is false, so nothing is ever pruned from that
channel: a message of age 1000000 ms survives a prune at T = 1000000 even
though `createdAt = 0 < T - 0*1000`. -/
theorem prune_skips_ttl_zero :
    pruneGuild 1000000 [g0, chan0, msg0] = [g0, chan0, msg0]
    ∧ msg0.body.type = "MESSAGE"
    ∧ (foldState [g0, chan0, msg0]).toOption.bind (fun st => mapGet st.channels "c1") =
        some { id := "c1", name := "general", kind := "ephemeral-text",
               retention := some { mode := "ttl", days := none, seconds := some 0 } }
    ∧ msg0.createdAt < 1000000 - 0 * 1000 := by
  refine ⟨by decide, by decide, by decide, by decide⟩

/-- Claim C10: the reducer is not total — for every state and every event
whose body type is `"MEMBER_UPDATE"`, `applyEvent` throws (its branch reads
the undeclared variable `newState`), while `validateEvent` places no
restriction on that type; consequently the engine rejects any
`MEMBER_UPDATE` publish to an existing guild with `VALIDATION_FAILED`
(the throw lands in the try/catch around validate-and-apply), leaving the
log unchanged and broadcasting nothing. -/
theorem memberUpdate_throws_and_rejected :
    (∀ (s : GuildState) (e : GuildEvent), e.body.type = "MEMBER_UPDATE" →
       applyEvent s e = .error "newState is not defined" ∧ validateEvent s e = .ok ())
    ∧ (∀ (verifyFn : String → String → String → Bool) (log : List GuildEvent)
         (cache : Option GuildState) (p : Publish) (st : GuildState) (cache1 : Option GuildState),
         p.body.type = "MEMBER_UPDATE" →
         verifyFn p.author (sigHash p.body p.author p.createdAt) p.signature = true →
         0 < assignSeq log →
         acquireState log cache (assignSeq log) = .ok (some (st, cache1)) →
         appendSequencedEvent verifyFn log cache p =
           .ok { log := log, cache := cache1,
                 reply := some { code := "VALIDATION_FAILED", message := "newState is not defined" },
                 broadcast := [], accepted := none }) := by
  constructor
  · intro s e ht
    cases hb : e.body <;> simp [Body.type, hb] at ht
    exact ⟨by simp [applyEvent, hb], by simp [validateEvent, hb]⟩
  · intro verifyFn log cache p st cache1 ht hv hpos hacq
    cases hb : p.body <;> simp [Body.type, hb] at ht
    simp only [appendSequencedEvent, hb, sigHash] at hv ⊢
    rw [hv]
    simp only [if_true, if_pos hpos, hacq]
    have hbody : (builtEvent log p).body = p.body := rfl
    simp only [validateEvent, applyEvent, builtEvent, hb]

/-- Claim C6: rejections are atomic and carry the specific code.  If
signature verification returns false (the source's `verify` is total: it
catches exceptions from malformed signatures or keys and returns false),
the publisher gets `ERROR{INVALID_SIGNATURE}`; if the validator throws, the
publisher gets `ERROR{VALIDATION_FAILED}` with the thrown message; in both
cases the stored log is unchanged, nothing is broadcast, and no event is
accepted. -/
theorem publish_reject_atomic (verifyFn : String → String → String → Bool)
    (log : List GuildEvent) (cache : Option GuildState) (p : Publish) :
    (verifyFn p.author (sigHash p.body p.author p.createdAt) p.signature = false →
       appendSequencedEvent verifyFn log cache p =
         .ok { log := log, cache := cache,
               reply := some { code := "INVALID_SIGNATURE", message := "Signature verification failed" },
               broadcast := [], accepted := none })
    ∧ (∀ (st : GuildState) (cache1 : Option GuildState) (msg : String),
         verifyFn p.author (sigHash p.body p.author p.createdAt) p.signature = true →
         0 < assignSeq log →
         acquireState log cache (assignSeq log) = .ok (some (st, cache1)) →
         validateEvent st (builtEvent log p) = .error msg →
         appendSequencedEvent verifyFn log cache p =
           .ok { log := log, cache := cache1,
                 reply := some { code := "VALIDATION_FAILED", message := msg },
                 broadcast := [], accepted := none }) := by
  constructor
  · intro hv
    simp only [appendSequencedEvent, hv]
    simp
  · intro st cache1 msg hv hpos hacq hval
    simp only [appendSequencedEvent, hv]
    simp only [if_true, if_pos hpos, hacq, hval]

/-- Claim C4 (amended): the engine accepts a seq-0 publish with any
`body.guildId` whatsoever — acceptance of a genesis event depends only on
the body type being `GUILD_CREATE` (and the signature verifying), the log
is keyed by `body.guildId`, and no relation between `body.guildId` and the
event id is enforced.  (The reference client picks
`hashObject({author, name, createdAt})`, which differs from the event id;
see the counterexample.) -/
theorem genesis_guildId_unconstrained (verifyFn : String → String → String → Bool)
    (g name : String) (desc acc egk : Option String) (a sig : String) (t : Int)
    (hv : verifyFn a (sigHash (Body.guildCreate g name desc acc egk) a t) sig = true) :
    ∃ (e : GuildEvent) (st : GuildState),
      appendSequencedEvent verifyFn [] none
          { body := Body.guildCreate g name desc acc egk, author := a, signature := sig, createdAt := t } =
        .ok { log := [e], cache := some st, reply := none, broadcast := [e], accepted := some e }
      ∧ e.body.guildId = g ∧ st.guildId = g := by
  refine ⟨builtEvent [] { body := Body.guildCreate g name desc acc egk, author := a, signature := sig, createdAt := t },
    { guildId := g, name := name, description := desc, ownerId := a, channels := [], roles := [],
      members := [(a, { userId := a, roles := ["owner"], nickname := none, joinedAt := t })],
      bans := [], createdAt := t, headSeq := 0, headHash := (builtEvent [] { body := Body.guildCreate g name desc acc egk, author := a, signature := sig, createdAt := t }).id,
      access := accessOrPublic acc }, ?_, rfl, rfl⟩
  simp only [appendSequencedEvent, hv]
  norm_num [assignSeq, List.getLast?_nil, Body.type, createInitialState, builtEvent]

/-- Claim C7: every checkpoint the loop emits for a guild whose log ends at
seq N (last event not already a `CHECKPOINT`, state rebuild succeeding) has
`body.seq = N + 1`, top-level `seq = N + 1`, `prevHash` equal to the last
event's id, and `body.rootHash = hashObject(serializeState(state))` for the
state obtained by folding events 0..N through the reducer — the state at
`seq - 1`. -/
theorem checkpoint_sound (guildId relayPub : String) (signFn : String → String) (now : Int)
    (events : List GuildEvent) (st : GuildState) (le : GuildEvent) (N : Int)
    (hlast : events.getLast? = some le) (hseq : le.seq = N)
    (hfold : foldState events = .ok st) (hcp : le.body.type ≠ "CHECKPOINT") :
    ∃ cp, createCheckpointForGuild guildId relayPub signFn now events = some cp ∧
      cp.body = Body.checkpoint guildId (hashSerializedState (serializeState st)) (N + 1) (serializeState st)
      ∧ cp.seq = N + 1 ∧ cp.prevHash = some le.id := by
  cases events with
  | nil => simp at hlast
  | cons e0 rest =>
    simp only [createCheckpointForGuild, hfold, hlast, if_neg hcp]
    subst hseq
    exact ⟨_, rfl, rfl, rfl, rfl⟩

/-- Helper: exact characterization of the `validateChain` loop with its
accumulated previous id and running index. -/
theorem chainCheck_iff (prevId : Option String) (i : Nat) (l : List GuildEvent) :
    chainCheck prevId i l = true ↔
      ∀ (k : Nat) (ev : GuildEvent), l[k]? = some ev →
        (ev.seq = ((i + k : Nat) : Int)
         ∧ (i + k = 0 → ev.prevHash = none)
         ∧ (k = 0 → 0 < i → ev.prevHash = prevId)
         ∧ (∀ prev, l[k - 1]? = some prev → 0 < k → ev.prevHash = some prev.id)
         ∧ ev.id = computeEventId ev.seq ev.prevHash ev.createdAt ev.author ev.body) := by
  induction l generalizing prevId i with
  | nil => simp [chainCheck]
  | cons ev rest ih =>
    rw [chainCheck]
    constructor
    · intro h
      split_ifs at h with h1 h2 h3 h4
      have e1 : ev.seq = (i : Int) := not_not.mp h1
      have e4 : ev.id = computeEventId ev.seq ev.prevHash ev.createdAt ev.author ev.body :=
        (not_not.mp h4).symm
      intro k ev' hk
      cases k with
      | zero =>
        rw [List.getElem?_cons_zero, Option.some.injEq] at hk
        subst hk
        refine ⟨by rw [Nat.add_zero]; exact e1, ?_, ?_, ?_, e4⟩
        · intro h0
          rcases not_and_or.mp h2 with hc | hc
          · exact absurd (by omega) hc
          · exact not_not.mp hc
        · intro _ hi
          rcases not_and_or.mp h3 with hc | hc
          · exact absurd hi hc
          · exact not_not.mp hc
        · intro prev _ hko
          exact absurd hko (by omega)
      | succ k =>
        rw [List.getElem?_cons_succ] at hk
        obtain ⟨c1, c2, c3, c4, c5⟩ := (ih (some ev.id) (i + 1)).mp h k ev' hk
        refine ⟨by rw [c1]; congr 1; omega, ?_, ?_, ?_, c5⟩
        · intro h0
          exact absurd h0 (by omega)
        · intro hk0
          exact absurd hk0 (by omega)
        · intro prev hprev _
          cases k with
          | zero =>
            rw [Nat.add_sub_cancel, List.getElem?_cons_zero, Option.some.injEq] at hprev
            subst hprev
            exact c3 rfl (by omega)
          | succ j =>
            rw [Nat.add_sub_cancel, List.getElem?_cons_succ] at hprev
            refine c4 prev ?_ (by omega)
            rw [Nat.add_sub_cancel]
            exact hprev
    · intro h
      obtain ⟨c1, c2, c3, c4, c5⟩ := h 0 ev (by rw [List.getElem?_cons_zero])
      have e1 : ¬ ev.seq ≠ (i : Int) := not_not.mpr (by rw [c1]; congr 1)
      have e2 : ¬(i = 0 ∧ ev.prevHash ≠ none) := by
        rintro ⟨hi0, hph⟩
        exact hph (c2 (by omega))
      have e3 : ¬(0 < i ∧ ev.prevHash ≠ prevId) := by
        rintro ⟨hipos, hph⟩
        exact hph (c3 rfl hipos)
      have e4 : ¬ computeEventId ev.seq ev.prevHash ev.createdAt ev.author ev.body ≠ ev.id :=
        not_not.mpr c5.symm
      rw [if_neg e1, if_neg e2, if_neg e3, if_neg e4]
      apply (ih (some ev.id) (i + 1)).mpr
      intro k ev' hk
      obtain ⟨d1, d2, d3, d4, d5⟩ := h (k + 1) ev' (by rw [List.getElem?_cons_succ]; exact hk)
      refine ⟨by rw [d1]; congr 1; omega, ?_, ?_, ?_, d5⟩
      · intro hik
        exact absurd hik (by omega)
      · intro hk0 _
        subst hk0
        refine d4 ev ?_ (by omega)
        rw [Nat.add_sub_cancel, List.getElem?_cons_zero]
      · intro prev hprev hkpos
        cases k with
        | zero => exact absurd hkpos (by omega)
        | succ j =>
          refine d4 prev ?_ (by omega)
          rw [Nat.add_sub_cancel] at hprev
          rw [Nat.add_sub_cancel, List.getElem?_cons_succ]
          exact hprev

/-- Claim C3 (amended): `validateChain(events)` returns true iff seqs are
dense from 0, each event's `prevHash` is null at seq 0 and the previous
event's id otherwise, and each `id` equals the recomputed hash of the
five-field record `{seq, prevHash, createdAt, author, body}`.  It checks
nothing else: neither signatures nor guildId consistency (see the
counterexample for the claim as originally stated). -/
theorem validateChain_characterization (events : List GuildEvent) :
    validateChain events = true ↔ chainSpec events := by
  rw [validateChain, chainCheck_iff]
  constructor
  · intro h k ev hk
    obtain ⟨c1, c2, c3, c4, c5⟩ := h k ev hk
    refine ⟨by rw [c1]; congr 1; omega, fun hk0 => c2 (by omega), c4, c5⟩
  · intro h k ev hk
    obtain ⟨c1, c2, c4, c5⟩ := h k ev hk
    refine ⟨by rw [c1]; congr 1; omega, fun h0 => c2 (by omega), fun _ h0i => absurd h0i (by omega), c4, c5⟩

/-- Helper: deleting one seq yields a sublist. -/
theorem removeFirstSeq_sublist (l : List GuildEvent) (s : Int) :
    (removeFirstSeq l s).Sublist l := by
  induction l with
  | nil => simp [removeFirstSeq]
  | cons e rest ih =>
    rw [removeFirstSeq]
    split_ifs
    · exact List.sublist_cons_self e rest
    · exact ih.cons₂ e

/-- Helper: survivors of a delete were in the log. -/
theorem mem_of_mem_removeFirstSeq {l : List GuildEvent} {s : Int} {e : GuildEvent}
    (h : e ∈ removeFirstSeq l s) : e ∈ l :=
  (removeFirstSeq_sublist l s).mem h

/-- Helper: deleting a different seq keeps an event. -/
theorem mem_removeFirstSeq_of_ne {l : List GuildEvent} {s : Int} {e : GuildEvent}
    (he : e ∈ l) (hne : e.seq ≠ s) : e ∈ removeFirstSeq l s := by
  induction l with
  | nil => simp at he
  | cons a rest ih =>
    rw [removeFirstSeq]
    rcases List.mem_cons.mp he with rfl | hmem
    · rw [if_neg hne]
      exact List.mem_cons_self e _
    · split_ifs with ha
      · exact hmem
      · exact List.mem_cons_of_mem a (ih hmem)

/-- Helper: with pairwise-distinct seqs, deleting an event's seq removes
it. -/
theorem not_mem_removeFirstSeq {l : List GuildEvent} {s : Int} {e : GuildEvent}
    (hnd : (l.map (·.seq)).Nodup) (he : e ∈ l) (hs : e.seq = s) :
    e ∉ removeFirstSeq l s := by
  induction l with
  | nil => simp at he
  | cons a rest ih =>
    rw [List.map_cons, List.nodup_cons] at hnd
    rw [removeFirstSeq]
    rcases List.mem_cons.mp he with rfl | hmem
    · rw [if_pos hs]
      intro hcon
      exact hnd.1 (List.mem_map_of_mem (·.seq) hcon)
    · have hane : a.seq ≠ s := by
        intro haeq
        have hx : e.seq ∈ List.map (fun x => x.seq) rest := List.mem_map_of_mem (·.seq) hmem
        rw [hs, ← haeq] at hx
        exact hnd.1 hx
      rw [if_neg hane]
      intro hcon
      rcases List.mem_cons.mp hcon with rfl | hcon2
      · exact hane hs
      · exact ih hnd.2 hmem hcon2

/-- Helper: survivors of a delete batch were in the log. -/
theorem mem_foldl_removeSeqs {seqs : List Int} {l : List GuildEvent} {e : GuildEvent}
    (h : e ∈ seqs.foldl removeFirstSeq l) : e ∈ l := by
  induction seqs generalizing l with
  | nil => simpa using h
  | cons s rest ih =>
    rw [List.foldl_cons] at h
    exact mem_of_mem_removeFirstSeq (ih h)

/-- Helper: an event whose seq is not scheduled survives the batch. -/
theorem mem_foldl_of_notin {seqs : List Int} {l : List GuildEvent} {e : GuildEvent}
    (he : e ∈ l) (hs : e.seq ∉ seqs) : e ∈ seqs.foldl removeFirstSeq l := by
  induction seqs generalizing l with
  | nil => simpa using he
  | cons s rest ih =>
    rw [List.foldl_cons]
    rw [List.mem_cons] at hs
    push_neg at hs
    exact ih (mem_removeFirstSeq_of_ne he hs.1) hs.2

/-- Helper: with pairwise−distinct seqs, a scheduled event is removed by
the batch. -/
theorem not_mem_foldl_of_mem {seqs : List Int} {l : List GuildEvent} {e : GuildEvent}
    (hnd : (l.map (·.seq)).Nodup) (he : e ∈ l) (hs : e.seq ∈ seqs) :
    e ∉ seqs.foldl removeFirstSeq l := by
  induction seqs generalizing l with
  | nil => simp at hs
  | cons s rest ih =>
    rw [List.foldl_cons]
    by_cases heq : e.seq = s
    · intro hcon
      exact not_mem_removeFirstSeq hnd he heq (mem_foldl_removeSeqs hcon)
    · rcases List.mem_cons.mp hs with hcase | hcase
      · exact absurd hcase heq
      · exact ih ((removeFirstSeq_sublist l s).map (·.seq) |>.nodup hnd)
          (mem_removeFirstSeq_of_ne he heq) hcase

/-- Helper: only `MESSAGE` events ever meet the delete condition. -/
theorem delCond_type {st : GuildState} {now : Int} {e : GuildEvent}
    (h : delCond st now e = true) : e.body.type = "MESSAGE" := by
  cases hb : e.body <;> simp [delCond, hb] at h ⊢ <;> rfl

/-- Claim C8 (amended): after a prune at time `now`, for a log with
pairwise-distinct seqs whose state rebuild succeeds: no surviving `MESSAGE`
in a channel whose retention is `{mode: "ttl", seconds: S}` with `S ≠ 0`
has `createdAt < now - S*1000`, and no event whose body type is not
`MESSAGE` is ever removed.  (`S = 0` is excluded because the source's
truthiness test `channel.retention.seconds` skips it — see the
counterexample.) -/
theorem prune_retention_sound (now : Int) (events : List GuildEvent) (st : GuildState)
    (hnd : (events.map (·.seq)).Nodup) (hfold : foldState events = .ok st) :
    (∀ e ∈ pruneGuild now events, ∀ (g c mid cont : String) (rt iv : Option String) (enc : Option Bool),
       e.body = Body.message g c mid cont rt iv enc →
       ∀ (ch : Channel) (r : Retention) (sec : Int),
         mapGet st.channels c = some ch → ch.retention = some r →
         r.mode = "ttl" → r.seconds = some sec → sec ≠ 0 →
         now - sec * 1000 ≤ e.createdAt)
    ∧ (∀ e ∈ events, e.body.type ≠ "MESSAGE" → e ∈ pruneGuild now events) := by
  cases events with
  | nil => simp [foldState] at hfold
  | cons a l =>
    have hpg : pruneGuild now (a :: l) =
        (((a :: l).filter (delCond st now)).map (·.seq)).foldl removeFirstSeq (a :: l) := by
      simp only [pruneGuild, hfold]
    constructor
    · intro e he g c mid cont rt iv enc hbody ch r sec hch hret hmode hsec hsecne
      rw [hpg] at he
      have hemem : e ∈ a :: l := mem_foldl_removeSeqs he
      by_contra hlt
      rw [not_le] at hlt
      have hrat : (((now - e.createdAt : Int) : Rat) / 1000) > (sec : Rat) := by
        rw [gt_iff_lt, lt_div_iff (by norm_num : (0 : Rat) < 1000)]
        have hint : (sec * 1000 : Int) < (now - e.createdAt : Int) := by omega
        exact_mod_cast hint
      have hrat2 : (sec : Rat) < ((now : Rat) - (e.createdAt : Rat)) / 1000 := by
        push_cast at hrat
        exact hrat
      have hcond : delCond st now e = true := by
        simp only [delCond, hbody, hch, hret, hsec]
        simp [hmode, hsecne, hrat2]
      have hin : e.seq ∈ ((a :: l).filter (delCond st now)).map (·.seq) :=
        List.mem_map_of_mem (·.seq) (List.mem_filter.mpr ⟨hemem, hcond⟩)
      exact not_mem_foldl_of_mem hnd hemem hin he
    · intro e he htype
      rw [hpg]
      apply mem_foldl_of_notin he
      intro hmem
      obtain ⟨m, hmfil, hmseq⟩ := List.mem_map.mp hmem
      have hmm := List.mem_filter.mp hmfil
      have : m = e := List.inj_on_of_nodup_map hnd hmm.1 he hmseq
      subst this
      exact htype (delCond_type hmm.2)

/-- Claim C9: for every state and every event of type `MESSAGE`,
`EDIT_MESSAGE`, `DELETE_MESSAGE`, `FORK_FROM` or `CHECKPOINT`, the reducer
returns the state with the four collections `channels`, `roles`, `members`,
`bans` passed through unchanged (aliased), `headSeq := event.seq`,
`headHash := event.id`, and every other field unchanged — the record-update
equality states exactly this frame condition. -/
theorem applyEvent_structural_noop (s : GuildState) (e : GuildEvent)
    (h : e.body.type ∈ (["MESSAGE", "EDIT_MESSAGE", "DELETE_MESSAGE", "FORK_FROM", "CHECKPOINT"] : List String)) :
    applyEvent s e = .ok { s with headSeq := e.seq, headHash := e.id } := by
  cases hb : e.body <;> simp [Body.type, hb] at h <;> simp [applyEvent, hb]

/-- Claim C5: for every state and every `MESSAGE` event, `validateEvent`
accepts iff the channel exists in `state.channels`, the author is not in
`state.bans`, and — when `state.access = "private"` — the author is in
`state.members`. -/
theorem validateEvent_message_iff (s : GuildState) (e : GuildEvent)
    (g c mid cont : String) (rt iv : Option String) (enc : Option Bool)
    (h : e.body = Body.message g c mid cont rt iv enc) :
    validateEvent s e = .ok () ↔
      (mapHas s.channels c = true ∧ mapHas s.bans e.author = false ∧
       (s.access = "private" → mapHas s.members e.author = true)) := by
  simp only [validateEvent, h]
  split_ifs with h1 h2 h3
  · simp_all
  · simp_all
  · simp_all
  · simp_all

/-- Witness for claim C9 at a concrete populated state and `FORK_FROM`
event. -/
theorem applyEvent_structural_noop_witness :
    applyEvent w9State w9Event = .ok { w9State with headSeq := 3, headHash := "h3" } :=
  applyEvent_structural_noop w9State w9Event (by decide)

/-- Witness for claim C5 at a concrete state and message. -/
theorem validateEvent_message_iff_witness :
    validateEvent w5State w5Event = .ok () ↔
      (mapHas w5State.channels "c1" = true ∧ mapHas w5State.bans w5Event.author = false ∧
       (w5State.access = "private" → mapHas w5State.members w5Event.author = true)) :=
  validateEvent_message_iff w5State w5Event "g" "c1" "m1" "hello" none none none rfl

/-- Witness for claim C10: a concrete `MEMBER_UPDATE` event throws in the
reducer yet passes the validator, and a concrete `MEMBER_UPDATE` publish to
a one-event guild is rejected with `VALIDATION_FAILED`. -/
theorem memberUpdate_throws_and_rejected_witness :
    (applyEvent w10State w10Event = .error "newState is not defined"
      ∧ validateEvent w10State w10Event = .ok ())
    ∧ appendSequencedEvent (fun _ _ _ => true) [w10Genesis] none w10Publish =
        .ok { log := [w10Genesis], cache := some w10State,
              reply := some { code := "VALIDATION_FAILED", message := "newState is not defined" },
              broadcast := [], accepted := none } :=
  ⟨memberUpdate_throws_and_rejected.1 w10State w10Event rfl,
   memberUpdate_throws_and_rejected.2 (fun _ _ _ => true) [w10Genesis] none w10Publish
     w10State (some w10State) rfl rfl (by decide) (by decide)⟩

/-- Witness for claim C6: a concrete publish rejected for signature and a
concrete publish rejected by the validator (unknown channel), both leaving
the log unchanged with nothing broadcast. -/
theorem publish_reject_atomic_witness :
    appendSequencedEvent (fun _ _ _ => false) [] none w6Publish =
      .ok { log := [], cache := none,
            reply := some { code := "INVALID_SIGNATURE", message := "Signature verification failed" },
            broadcast := [], accepted := none }
    ∧ appendSequencedEvent (fun _ _ _ => true) [w6Genesis] (some w6State) w6Publish =
        .ok { log := [w6Genesis], cache := some w6State,
              reply := some { code := "VALIDATION_FAILED", message := "Channel c9 does not exist" },
              broadcast := [], accepted := none } :=
  ⟨(publish_reject_atomic (fun _ _ _ => false) [] none w6Publish).1 rfl,
   (publish_reject_atomic (fun _ _ _ => true) [w6Genesis] (some w6State) w6Publish).2
     w6State (some w6State) "Channel c9 does not exist" rfl (by decide) (by decide) (by decide)⟩

/-- Witness for claim C4 (amended) at a concrete genesis publish whose
`body.guildId` is the arbitrary string `"zzz"`. -/
theorem genesis_guildId_unconstrained_witness :
    ∃ (e : GuildEvent) (st : GuildState),
      appendSequencedEvent (fun _ _ _ => true) [] none
          { body := Body.guildCreate "zzz" "N" none none none,
            author := "al", signature := "sg", createdAt := 0 } =
        .ok { log := [e], cache := some st, reply := none, broadcast := [e], accepted := some e }
      ∧ e.body.guildId = "zzz" ∧ st.guildId = "zzz" :=
  genesis_guildId_unconstrained (fun _ _ _ => true) "zzz" "N" none none none "al" "sg" 0 rfl

/-- Witness for claim C7 at a concrete one-event guild log. -/
theorem checkpoint_sound_witness :
    ∃ cp, createCheckpointForGuild "g7" "rpub" (fun _ => "rsig") 99 [w7Genesis] = some cp ∧
      cp.body = Body.checkpoint "g7" (hashSerializedState (serializeState w7State)) (0 + 1)
                  (serializeState w7State)
      ∧ cp.seq = 0 + 1 ∧ cp.prevHash = some w7Genesis.id :=
  checkpoint_sound "g7" "rpub" (fun _ => "rsig") 99 [w7Genesis] w7State w7Genesis 0
    rfl rfl (by decide) (by decide)

/-- Witness for claim C8 (amended) at a concrete log with a ttl-5s channel,
one expired and one fresh message, pruned at t = 100000. -/
theorem prune_retention_sound_witness :
    (∀ e ∈ pruneGuild 100000 [g8, chan8, msg8old, msg8new],
       ∀ (g c mid cont : String) (rt iv : Option String) (enc : Option Bool),
       e.body = Body.message g c mid cont rt iv enc →
       ∀ (ch : Channel) (r : Retention) (sec : Int),
         mapGet w8State.channels c = some ch → ch.retention = some r →
         r.mode = "ttl" → r.seconds = some sec → sec ≠ 0 →
         100000 - sec * 1000 ≤ e.createdAt)
    ∧ (∀ e ∈ [g8, chan8, msg8old, msg8new], e.body.type ≠ "MESSAGE" →
         e ∈ pruneGuild 100000 [g8, chan8, msg8old, msg8new]) :=
  prune_retention_sound 100000 [g8, chan8, msg8old, msg8new] w8State (by decide) (by decide)

end CGP
